import Mathlib

/-!
Shallow embedding of the `openglcts-mini` repository: the `main` wrapper in
`src/main.cpp` together with the stub headers `src/vkPlatform.hpp` and
`src/vkNullDriver.hpp`.

The external conformance-test framework (`tcu::CommandLine`, `tcu::DirArchive`,
`tcu::TestLog`, `tcu::Platform`, `tcu::App`, `qpRedirectOut`) is not part of
this repository; `main` only observes it through the outcomes of its calls.
Accordingly each external constructor is modelled as either succeeding or
throwing a `std::exception` carrying a message (`Except String _`), and each
call to `app->iterate()` either returns a `Bool` or throws.
-/

/-- Exit code `EXIT_SUCCESS` from `<cstdlib>`. -/
def EXIT_SUCCESS : Nat := 0

/-- Exit code `EXIT_FAILURE` from `<cstdlib>`. -/
def EXIT_FAILURE : Nat := 1

/-- `tcu::DynamicFunctionLibrary` is forward declared in `vkPlatform.hpp`; its
real implementation lives in the external framework.  Since its contents are
unknown to this repository it is modelled as an opaque token, so that we can
express that the stub code never inspects it. -/
structure DynamicFunctionLibrary where
  token : Nat
  deriving DecidableEq, Repr

/-- `vk::PlatformInterface` from `src/vkPlatform.hpp`: a class with no data
members, only a virtual destructor with an empty body. -/
structure PlatformInterface where
  deriving DecidableEq, Repr

/-- `tcu::FunctionLibrary` is forward declared in `vkPlatform.hpp`; the stub
only ever produces the single value obtained by reinterpreting the static
dummy interface object, modelled here as the fieldless default. -/
structure FunctionLibrary where
  deriving DecidableEq, Repr

/-- `vk::Library` from `src/vkPlatform.hpp`: no per-instance data members
(the only member is the `static const PlatformInterface*` dummy, which is
class-level, not instance state). -/
structure Library where
  deriving DecidableEq, Repr

/-- The static `vk::Library::m_dummyInterface` object (a default
`PlatformInterface`). -/
def m_dummyInterface : PlatformInterface := {}

/-- `vk::Library::getPlatformInterface`: returns `*m_dummyInterface`, the
static dummy interface, ignoring the receiver. -/
def Library.getPlatformInterface (_ : Library) : PlatformInterface :=
  m_dummyInterface

/-- The value produced by `reinterpret_cast`-ing the static dummy interface to
`const tcu::FunctionLibrary&` in `Library::getFunctionLibrary`. -/
def dummyFunctionLibrary : FunctionLibrary := {}

/-- `vk::Library::getFunctionLibrary`: returns the static dummy object
reinterpreted as a `tcu::FunctionLibrary`, ignoring the receiver. -/
def Library.getFunctionLibrary (_ : Library) : FunctionLibrary :=
  dummyFunctionLibrary

/-- `vk::PlatformDriver` from `src/vkPlatform.hpp`: inherits
`PlatformInterface`, adds no data members. -/
structure PlatformDriver extends PlatformInterface where
  deriving DecidableEq, Repr

/-- The `vk::PlatformDriver` constructor: takes a
`const tcu::DynamicFunctionLibrary&` and has an empty body, so the argument
is never inspected. -/
def PlatformDriver.create (_ : DynamicFunctionLibrary) : PlatformDriver := {}

/-- The nested enum `vk::Platform::LibraryType` from `src/vkPlatform.hpp`. -/
inductive LibraryType where
  | LIBRARY_TYPE_VULKAN
  | LIBRARY_TYPE_VULKAN_SC
  deriving DecidableEq, Repr

/-- `vk::Platform` from `src/vkPlatform.hpp`: no data members, only the
nested enum and an empty virtual destructor. -/
structure Platform where
  deriving DecidableEq, Repr

/-- `vk::NullDriver` from `src/vkNullDriver.hpp`: inherits `Library`, adds
no data members, only an empty virtual destructor. -/
structure NullDriver extends Library where
  deriving DecidableEq, Repr

/-- A minimal heap model for `new` in `createNullDriver`: addresses are
natural numbers, `0` is the null pointer, and `nextAddr` is the next fresh
address handed out by the allocator (so a well-formed heap has
`0 < nextAddr`). -/
structure Heap where
  nextAddr : Nat
  deriving DecidableEq, Repr

/-- The null pointer. -/
def nullPtr : Nat := 0

/-- `vk::createNullDriver` from `src/vkNullDriver.hpp`:
`return new NullDriver();` — allocates a fresh, default-constructed
`NullDriver` and returns the pointer to it. -/
def createNullDriver (h : Heap) : (Nat × NullDriver) × Heap :=
  ((h.nextAddr, {}), ⟨h.nextAddr + 1⟩)

/-- Iterated calls to `createNullDriver`, collecting the returned pointers. -/
def allocMany : Nat → Heap → List Nat × Heap
  | 0, h => ([], h)
  | n + 1, h =>
    let ((p, _), h1) := createNullDriver h
    let (ps, h2) := allocMany n h1
    (p :: ps, h2)

/-- The pair of output hooks that `qpRedirectOut` installs.  `writeHook`
models the `(int, const char*)` hook and `writevHook` the
`(int, const char*, va_list)` hook (the varargs payload is modelled as a list
of strings). -/
structure QpHooks where
  writeHook : Int → String → Bool
  writevHook : Int → String → List String → Bool

/-- `disableStdout` from `src/main.cpp`: the hooks it passes to
`qpRedirectOut` are two lambdas that ignore all of their arguments and
return `false`. -/
def disableStdout : QpHooks where
  writeHook := fun _ _ => false
  writevHook := fun _ _ _ => false

/-- The slice of `tcu::CommandLine` that `main` reads.  The archive
directory, log file name and log flags are forwarded untouched to the
external framework. -/
structure CommandLine where
  quietMode : Bool
  archiveDir : String
  logFileName : String
  logFlags : Nat
  deriving DecidableEq, Repr

/-- The outcome of one call to `app->iterate()`: it either returns a `Bool`
or throws a `std::exception` with a message. -/
inductive IterOutcome where
  | returns (b : Bool)
  | throws (msg : String)
  deriving DecidableEq, Repr

/-- The behaviour of the external framework as observed by one run of
`main`: each constructor call either yields a value or throws, and `iters`
is the stream of outcomes successive `app->iterate()` calls would produce.
`internalFailedCases` is the number of test cases the external `App` counted
as failed internally; `main` never reads it (pass/fail detail goes only to
the log). -/
structure Env where
  cmdLineCtor : Except String CommandLine
  archiveCtor : Except String Unit
  logCtor : Except String Unit
  platformCtor : Except String Unit
  appCtor : Except String Unit
  iters : List IterOutcome
  internalFailedCases : Nat

/-- The observable result of a run of `main`: the value returned from
`main`, the lines printed to `stderr`, how many times `app->iterate()` was
called, and whether `disableStdout` was executed (quiet mode). -/
structure MainState where
  exitStatus : Nat
  stderrLines : List String
  iterateCalls : Nat
  quietRedirected : Bool
  deriving DecidableEq, Repr

/-- The line `main` prints to `stderr` in its catch handler:
`fprintf(stderr, "[openglcts] Exception: %s\n", e.what())`. -/
def exceptionLine (m : String) : String :=
  "[openglcts] Exception: " ++ m ++ "\n"

/-- The loop `while (app->iterate()) { }`: consume outcomes until a call
returns `false` (normal completion) or throws (error), reporting how many
calls were made.  `none` means the supplied outcome list was exhausted with
every call returning `true`, i.e. the loop does not terminate within the
given behaviour. -/
def iterLoop : List IterOutcome → Option (Except String Unit × Nat)
  | [] => none
  | IterOutcome.returns true :: rest =>
    match iterLoop rest with
    | none => none
    | some (r, n) => some (r, n + 1)
  | IterOutcome.returns false :: _ => some (Except.ok (), 1)
  | IterOutcome.throws m :: _ => some (Except.error m, 1)

/-- `main` from `src/main.cpp`.  `exitStatus` starts as `EXIT_SUCCESS`; the
`try` block constructs the command line (calling `disableStdout` when quiet
mode is set), the archive, the log, the platform and the app in that order,
then runs the iteration loop; the single `catch (const std::exception&)`
prints the message to `stderr` and sets `exitStatus = EXIT_FAILURE`; finally
`exitStatus` is returned.  `none` means the run never terminates (the loop
spins forever), in which case `main` never returns. -/
def mainFn (env : Env) : Option MainState :=
  match env.cmdLineCtor with
  | Except.error m => some ⟨EXIT_FAILURE, [exceptionLine m], 0, false⟩
  | Except.ok cl =>
    let quiet := cl.quietMode
    match env.archiveCtor with
    | Except.error m => some ⟨EXIT_FAILURE, [exceptionLine m], 0, quiet⟩
    | Except.ok _ =>
      match env.logCtor with
      | Except.error m => some ⟨EXIT_FAILURE, [exceptionLine m], 0, quiet⟩
      | Except.ok _ =>
        match env.platformCtor with
        | Except.error m => some ⟨EXIT_FAILURE, [exceptionLine m], 0, quiet⟩
        | Except.ok _ =>
          match env.appCtor with
          | Except.error m => some ⟨EXIT_FAILURE, [exceptionLine m], 0, quiet⟩
          | Except.ok _ =>
            match iterLoop env.iters with
            | none => none
            | some (Except.ok _, n) => some ⟨EXIT_SUCCESS, [], n, quiet⟩
            | some (Except.error m, n) =>
              some ⟨EXIT_FAILURE, [exceptionLine m], n, quiet⟩

/-- The output hooks in effect at the end of a run: `disableStdout`'s hooks
when quiet mode redirected the output, the framework's defaults (`none`)
otherwise. -/
def installedHooks (st : MainState) : Option QpHooks :=
  if st.quietRedirected then some disableStdout else none

/-- Whether all five constructor calls in the `try` block succeed. -/
def setupOk (env : Env) : Bool :=
  match env.cmdLineCtor, env.archiveCtor, env.logCtor, env.platformCtor,
    env.appCtor with
  | Except.ok _, Except.ok _, Except.ok _, Except.ok _, Except.ok _ => true
  | _, _, _, _, _ => false

/-- Whether an exception escapes the iteration loop itself (as opposed to
one of the constructor calls before it). -/
def loopThrew (env : Env) : Bool :=
  setupOk env &&
    match iterLoop env.iters with
    | some (Except.error _, _) => true
    | _ => false

/-- The message of the exception reaching the top-level catch in `main`, if
any: the first constructor that throws, or else a throw from the iteration
loop. -/
def thrownException (env : Env) : Option String :=
  match env.cmdLineCtor with
  | Except.error m => some m
  | Except.ok _ =>
    match env.archiveCtor with
    | Except.error m => some m
    | Except.ok _ =>
      match env.logCtor with
      | Except.error m => some m
      | Except.ok _ =>
        match env.platformCtor with
        | Except.error m => some m
        | Except.ok _ =>
          match env.appCtor with
          | Except.error m => some m
          | Except.ok _ =>
            match iterLoop env.iters with
            | some (Except.error m, _) => some m
            | _ => none

/-- Sample exception message for a command-line constructor failure. -/
def msgBadCmdLine : String := "invalid command line arguments"

/-- Sample exception message for a throw out of the iteration loop. -/
def msgResourceError : String := "resource error"

/-- A command line with quiet mode off. -/
def clDefault : CommandLine := ⟨false, ".", "TestResults.qpa", 0⟩

/-- A command line with quiet mode on. -/
def clQuiet : CommandLine := ⟨true, ".", "TestResults.qpa", 0⟩

/-- A run where everything succeeds: `iterate` returns `true` twice and then
`false`, while two test cases failed internally. -/
def envNormal : Env :=
  ⟨Except.ok clDefault, Except.ok (), Except.ok (), Except.ok (),
    Except.ok (), [IterOutcome.returns true, IterOutcome.returns true,
      IterOutcome.returns false], 2⟩

/-- The observable result of `mainFn envNormal`. -/
def stNormal : MainState := ⟨EXIT_SUCCESS, [], 3, false⟩

/-- A run where the `tcu::CommandLine` constructor throws, before the
iteration loop is ever reached. -/
def envBadCmdLine : Env :=
  ⟨Except.error msgBadCmdLine, Except.ok (), Except.ok (), Except.ok (),
    Except.ok (), [IterOutcome.returns false], 0⟩

/-- The observable result of `mainFn envBadCmdLine`. -/
def stBadCmdLine : MainState :=
  ⟨EXIT_FAILURE, [exceptionLine msgBadCmdLine], 0, false⟩

/-- A run where the second `iterate` call throws. -/
def envLoopThrows : Env :=
  ⟨Except.ok clDefault, Except.ok (), Except.ok (), Except.ok (),
    Except.ok (), [IterOutcome.returns true, IterOutcome.throws
      msgResourceError], 0⟩

/-- The observable result of `mainFn envLoopThrows`. -/
def stLoopThrows : MainState :=
  ⟨EXIT_FAILURE, [exceptionLine msgResourceError], 2, false⟩

/-- A quiet-mode run that completes normally after one `iterate` call. -/
def envQuiet : Env :=
  ⟨Except.ok clQuiet, Except.ok (), Except.ok (), Except.ok (),
    Except.ok (), [IterOutcome.returns false], 0⟩

/-- The observable result of `mainFn envQuiet`. -/
def stQuiet : MainState := ⟨EXIT_SUCCESS, [], 1, true⟩

/-- Helper: a terminating run of `mainFn` is fully characterised by the
exception (if any) reaching the top-level catch, and no `iterate` call is
made when a constructor throws. -/
theorem mainFn_char (env : Env) (st : MainState) (h : mainFn env = some st) :
    ((thrownException env = none ∧ st.exitStatus = EXIT_SUCCESS ∧
        st.stderrLines = []) ∨
      (∃ m, thrownException env = some m ∧ st.exitStatus = EXIT_FAILURE ∧
        st.stderrLines = [exceptionLine m])) ∧
    (setupOk env = false → st.iterateCalls = 0) ∧
    (∀ cl, env.cmdLineCtor = Except.ok cl →
      st.quietRedirected = cl.quietMode) := by
  rcases env with ⟨cle, ae, le, pe, ape, its, ifc⟩
  rcases cle with m | cl <;> rcases ae with m2 | u2 <;> rcases le with m3 | u3 <;>
    rcases pe with m4 | u4 <;> rcases ape with m5 | u5 <;>
    rcases hres : iterLoop its with _ | ⟨r | m6, n⟩ <;>
    simp_all [mainFn, thrownException, setupOk] <;>
    simp [← h]

/-- Helper: the iteration loop on a stream of `k` `true`s followed by a
`false` makes exactly `k + 1` calls and completes normally, whatever comes
after the `false`. -/
theorem iterLoop_replicate (k : Nat) (rest : List IterOutcome) :
    iterLoop (List.replicate k (IterOutcome.returns true) ++
      IterOutcome.returns false :: rest) = some (Except.ok (), k + 1) := by
  induction k with
  | zero => rfl
  | succ k ih => simp [List.replicate_succ, iterLoop, ih]

/-- Helper: `n` successive `createNullDriver` calls return the addresses
`nextAddr, nextAddr + 1, ...` and advance the allocator by `n`. -/
theorem allocMany_eq : ∀ (n : Nat) (h : Heap),
    allocMany n h = (List.range' h.nextAddr n, ⟨h.nextAddr + n⟩)
  | 0, h => rfl
  | n + 1, h => by
    simp only [allocMany, createNullDriver, allocMany_eq n ⟨h.nextAddr + 1⟩,
      List.range'_succ]
    have harith : h.nextAddr + 1 + n = h.nextAddr + (n + 1) := by omega
    rw [harith]

/-- Helper: an exception escaping the iteration loop reaches the top-level
catch. -/
theorem loopThrew_thrown (env : Env) (h : loopThrew env = true) :
    (thrownException env).isSome = true := by
  rcases env with ⟨cle, ae, le, pe, ape, its, ifc⟩
  rcases cle with m | cl <;> rcases ae with m2 | u2 <;> rcases le with m3 | u3 <;>
    rcases pe with m4 | u4 <;> rcases ape with m5 | u5 <;>
    rcases hres : iterLoop its with _ | ⟨r | m6, n⟩ <;>
    simp_all [loopThrew, setupOk, thrownException]

/-- C1 (counterexample): the claim "a non-zero exit status occurs exactly
when an exception propagated out of the iterate loop" is false as stated:
when the `tcu::CommandLine` constructor throws, `main` exits with
`EXIT_FAILURE` although no exception escaped the iteration loop (the loop
was never even reached). -/
theorem exit_failure_without_loop_exception :
    ¬ (∀ env st, mainFn env = some st →
        (st.exitStatus ≠ EXIT_SUCCESS ↔ loopThrew env = true)) := by
  intro hclaim
  have h := (hclaim envBadCmdLine stBadCmdLine rfl).mp (by decide)
  exact absurd h (by decide)

/-- C1 (amended): a non-zero exit status occurs exactly when an exception
propagates out of the `try` block of `main` — thrown by one of the five
constructor calls or by the iteration loop; in particular an exception
escaping the iteration loop always yields `EXIT_FAILURE`. -/
theorem exit_nonzero_iff_exception_in_try :
    ∀ env st, mainFn env = some st →
      ((st.exitStatus ≠ EXIT_SUCCESS ↔ (thrownException env).isSome = true) ∧
       (loopThrew env = true → st.exitStatus = EXIT_FAILURE)) := by
  intro env st h
  have hchar := (mainFn_char env st h).1
  constructor
  · constructor
    · intro hne
      rcases hchar with ⟨_, hexit, _⟩ | ⟨m, hsome, _, _⟩
      · exact absurd hexit hne
      · rw [hsome]; rfl
    · intro hsomeE
      rcases hchar with ⟨hnone, _, _⟩ | ⟨m, _, hexit, _⟩
      · rw [hnone] at hsomeE; cases hsomeE
      · rw [hexit]; decide
  · intro hloop
    have hs := loopThrew_thrown env hloop
    rcases hchar with ⟨hnone, _, _⟩ | ⟨m, _, hexit, _⟩
    · rw [hnone] at hs; cases hs
    · exact hexit

/-- Witness for the amended C1 at a run whose second `iterate` call throws. -/
theorem exit_nonzero_iff_exception_in_try_check :
    (stLoopThrows.exitStatus ≠ EXIT_SUCCESS ↔
      (thrownException envLoopThrows).isSome = true) ∧
    (loopThrew envLoopThrows = true → stLoopThrows.exitStatus = EXIT_FAILURE) :=
  exit_nonzero_iff_exception_in_try envLoopThrows stLoopThrows rfl

/-- C2: when every constructor succeeds and the iteration loop runs to
completion without an exception, `main` returns `EXIT_SUCCESS` with nothing
on `stderr`, and the result is independent of how many test cases failed
internally. -/
theorem loop_completion_exits_success :
    ∀ env cl n, env.cmdLineCtor = Except.ok cl →
      env.archiveCtor = Except.ok () → env.logCtor = Except.ok () →
      env.platformCtor = Except.ok () → env.appCtor = Except.ok () →
      iterLoop env.iters = some (Except.ok (), n) →
      mainFn env = some ⟨EXIT_SUCCESS, [], n, cl.quietMode⟩ ∧
      ∀ k, mainFn { env with internalFailedCases := k } = mainFn env := by
  intro env cl n h1 h2 h3 h4 h5 h6
  constructor
  · simp [mainFn, h1, h2, h3, h4, h5, h6]
  · intro k
    rcases env with ⟨cle, ae, le, pe, ape, its, ifc⟩
    rfl

/-- Witness for C2: a run with three `iterate` calls and two internal test
failures still exits with `EXIT_SUCCESS`. -/
theorem loop_completion_exits_success_check :
    mainFn envNormal = some ⟨EXIT_SUCCESS, [], 3, clDefault.quietMode⟩ ∧
    mainFn { envNormal with internalFailedCases := 7 } = mainFn envNormal :=
  ⟨(loop_completion_exits_success envNormal clDefault 3 rfl rfl rfl rfl rfl
      rfl).1,
   (loop_completion_exits_success envNormal clDefault 3 rfl rfl rfl rfl rfl
      rfl).2 7⟩

/-- C3: the single top-level catch is the only error handling: every
exception reaching it makes `main` print exactly the formatted message to
`stderr` and return `EXIT_FAILURE`; without an exception nothing is printed
to `stderr` and `main` returns `EXIT_SUCCESS`; and there is no recovery or
retry — once a constructor throws, `iterate` is never called. -/
theorem single_catch_reports_and_fails :
    ∀ env st, mainFn env = some st →
      (∀ m, thrownException env = some m →
        st.stderrLines = [exceptionLine m] ∧ st.exitStatus = EXIT_FAILURE) ∧
      (thrownException env = none →
        st.stderrLines = [] ∧ st.exitStatus = EXIT_SUCCESS) ∧
      (setupOk env = false → st.iterateCalls = 0) := by
  intro env st h
  obtain ⟨hor, hsetup, _⟩ := mainFn_char env st h
  refine ⟨?_, ?_, hsetup⟩
  · intro m hm
    rcases hor with ⟨hnone, _, _⟩ | ⟨m2, hsome, hexit, hlines⟩
    · rw [hnone] at hm; cases hm
    · rw [hsome] at hm
      injection hm with hmm
      subst hmm
      exact ⟨hlines, hexit⟩
  · intro hnone
    rcases hor with ⟨_, hexit, hlines⟩ | ⟨m2, hsome, _, _⟩
    · exact ⟨hlines, hexit⟩
    · rw [hsome] at hnone; cases hnone

/-- Witness for C3 at a run whose command-line constructor throws. -/
theorem single_catch_reports_and_fails_check :
    (stBadCmdLine.stderrLines = [exceptionLine msgBadCmdLine] ∧
      stBadCmdLine.exitStatus = EXIT_FAILURE) ∧
    stBadCmdLine.iterateCalls = 0 :=
  ⟨(single_catch_reports_and_fails envBadCmdLine stBadCmdLine rfl).1
      msgBadCmdLine rfl,
   (single_catch_reports_and_fails envBadCmdLine stBadCmdLine rfl).2.2 rfl⟩

/-- C4: after the five constructor calls succeed, `main` repeatedly calls
`iterate`, continuing precisely while it returns `true` and stopping at the
first call that returns `false`: on a stream of `k` `true`s followed by a
`false` the loop makes exactly `k + 1` calls, whatever outcomes `rest`
would have come after the first `false`, and the run exits successfully. -/
theorem iterate_loop_until_first_false :
    ∀ env cl k rest, env.cmdLineCtor = Except.ok cl →
      env.archiveCtor = Except.ok () → env.logCtor = Except.ok () →
      env.platformCtor = Except.ok () → env.appCtor = Except.ok () →
      env.iters = List.replicate k (IterOutcome.returns true) ++
        IterOutcome.returns false :: rest →
      mainFn env = some ⟨EXIT_SUCCESS, [], k + 1, cl.quietMode⟩ := by
  intro env cl k rest h1 h2 h3 h4 h5 h6
  simp [mainFn, h1, h2, h3, h4, h5, h6, iterLoop_replicate]

/-- Witness for C4: two `true`s then a `false` give exactly three
`iterate` calls. -/
theorem iterate_loop_until_first_false_check :
    mainFn envNormal = some ⟨EXIT_SUCCESS, [], 2 + 1, clDefault.quietMode⟩ :=
  iterate_loop_until_first_false envNormal clDefault 2 [] rfl rfl rfl rfl rfl
    rfl

/-- C5: none of the classes declared in the stub headers (`Library`,
`Platform`, `PlatformInterface`, `PlatformDriver`, `NullDriver`) carries any
per-instance state: any two instances of each class are equal. -/
theorem stub_classes_stateless :
    (∀ a b : Library, a = b) ∧ (∀ a b : Platform, a = b) ∧
    (∀ a b : PlatformInterface, a = b) ∧ (∀ a b : PlatformDriver, a = b) ∧
    (∀ a b : NullDriver, a = b) :=
  ⟨fun _ _ => rfl, fun _ _ => rfl, fun _ _ => rfl,
    fun a b => by rcases a with ⟨⟨⟩⟩; rcases b with ⟨⟨⟩⟩; rfl,
    fun a b => by rcases a with ⟨⟨⟩⟩; rcases b with ⟨⟨⟩⟩; rfl⟩

/-- C6: every operation exposed by the stub classes does nothing or returns
a default value: `getPlatformInterface` always returns the static dummy
interface, `getFunctionLibrary` always returns the reinterpreted dummy, the
`PlatformDriver` constructor ignores its function-library argument, and
`createNullDriver` always constructs the default `NullDriver`. -/
theorem stub_operations_trivial :
    (∀ l : Library, l.getPlatformInterface = m_dummyInterface) ∧
    (∀ l : Library, l.getFunctionLibrary = dummyFunctionLibrary) ∧
    (∀ d1 d2 : DynamicFunctionLibrary,
      PlatformDriver.create d1 = PlatformDriver.create d2) ∧
    (∀ h : Heap, (createNullDriver h).1.2 = ({} : NullDriver)) :=
  ⟨fun _ => rfl, fun _ => rfl, fun _ _ => rfl, fun _ => rfl⟩

/-- C8: on a well-formed heap, every call to `createNullDriver` returns a
non-null pointer, and the pointers returned by any sequence of calls are
pairwise distinct (each call allocates a fresh object, never a previously
returned one). -/
theorem createNullDriver_fresh_nonnull (n : Nat) (h : Heap)
    (hpos : 0 < h.nextAddr) :
    (allocMany n h).1.Nodup ∧ nullPtr ∉ (allocMany n h).1 := by
  rw [allocMany_eq]
  refine ⟨List.nodup_range' _ _, ?_⟩
  simp only [nullPtr, List.mem_range'_1]
  omega

/-- Witness for C8: three allocations from the initial heap. -/
theorem createNullDriver_fresh_nonnull_check :
    0 < (⟨1⟩ : Heap).nextAddr ∧
    ((allocMany 3 ⟨1⟩).1.Nodup ∧ nullPtr ∉ (allocMany 3 ⟨1⟩).1) :=
  ⟨by decide, createNullDriver_fresh_nonnull 3 ⟨1⟩ (by decide)⟩

/-- C9: when quiet mode is requested and parsing succeeds, `disableStdout`
is executed, so the installed output hooks are the two lambdas from
`disableStdout`, which return `false` for every integer tag and every
string or varargs payload. -/
theorem quiet_mode_installs_false_hooks :
    ∀ env cl st, env.cmdLineCtor = Except.ok cl → cl.quietMode = true →
      mainFn env = some st →
      installedHooks st = some disableStdout ∧
      (∀ t s, disableStdout.writeHook t s = false) ∧
      (∀ t s args, disableStdout.writevHook t s args = false) := by
  intro env cl st hcl hq h
  have hr := (mainFn_char env st h).2.2 cl hcl
  rw [hq] at hr
  exact ⟨by simp [installedHooks, hr], fun _ _ => rfl, fun _ _ _ => rfl⟩

/-- Witness for C9 at a quiet-mode run, with the hooks evaluated on sample
inputs. -/
theorem quiet_mode_installs_false_hooks_check :
    installedHooks stQuiet = some disableStdout ∧
    disableStdout.writeHook 7 stQuiet.stderrLines.length.repr = false ∧
    disableStdout.writevHook 7 msgResourceError [msgBadCmdLine] = false :=
  ⟨(quiet_mode_installs_false_hooks envQuiet clQuiet stQuiet rfl rfl rfl).1,
   (quiet_mode_installs_false_hooks envQuiet clQuiet stQuiet rfl rfl
      rfl).2.1 7 stQuiet.stderrLines.length.repr,
   (quiet_mode_installs_false_hooks envQuiet clQuiet stQuiet rfl rfl
      rfl).2.2 7 msgResourceError [msgBadCmdLine]⟩

/-- C10: whenever `main` returns, its return value is `EXIT_SUCCESS` or
`EXIT_FAILURE`; no other exit status is possible. -/
theorem mainFn_exit_status_binary :
    ∀ env st, mainFn env = some st →
      st.exitStatus = EXIT_SUCCESS ∨ st.exitStatus = EXIT_FAILURE := by
  intro env st h
  rcases (mainFn_char env st h).1 with ⟨_, hexit, _⟩ | ⟨m, _, hexit, _⟩
  · exact Or.inl hexit
  · exact Or.inr hexit

/-- Witness for C10 at a normally completing run. -/
theorem mainFn_exit_status_binary_check :
    stNormal.exitStatus = EXIT_SUCCESS ∨ stNormal.exitStatus = EXIT_FAILURE :=
  mainFn_exit_status_binary envNormal stNormal rfl
